import Mathlib

set_option maxHeartbeats 1000000

/-!
# Verification of the crypto_trade core components

A shallow embedding, in Lean 4, of the core data model and operations of the
crypto_trade repository, together with theorems settling the frozen claims
about it.

Modelling conventions, used throughout:

* Machine integers (`u32`, `u64`, `i64`, `u8`) are `Nat`/`Int` with explicit
  wrap-around (`% 2 ^ w`) where the source can overflow.
* `rust_decimal::Decimal` and the `f64` values the pre/post processor converts
  into it are modelled as `Rat` (exact arithmetic; `Decimal::from_f64` of a
  decimal literal is modelled as that literal's exact rational value, and
  NaN/infinite `f64` inputs, on which `from_f64` returns `None`, are modelled
  as `Option.none` where the source holds an `Option`).
* In the wire codec, `f64` fields are modelled by their 64-bit pattern (a
  `Nat < 2 ^ 64`): the codec moves the raw 8 bytes and never computes with the
  float value.
* `DateTime<Utc>` values are modelled by their millisecond epoch timestamp
  (`Int`); `Instant` likewise. `Utc::now()` and `Uuid::new_v4()` are
  nondeterministic inputs of the source, passed as explicit parameters.
* Rust `String`s inside wire-format structs are modelled as their UTF-8 byte
  lists (`List Nat`); elsewhere as Lean `String`.
* `HashMap`/`DashMap` are modelled as association lists; `entry().or_insert`
  keeps an existing entry in place and appends a fresh one.
* Fallible code (`Result`) is `Except String`; code that can *panic* (the
  `bytes` crate accessors `get_u32_le`, `get_i64_le`, `copy_to_bytes` panic
  when fewer bytes remain than requested) is modelled in `Option`, `none`
  standing for the panic.
-/

/-! ## Little-endian byte primitives (models of `bytes::BufMut` / `bytes::Buf`)

Bytes are `Nat` values; the encoders only emit values `< 256`. -/

/-- `put_u32_le`: the four little-endian bytes of `n` (mod `2 ^ 32`). -/
def encU32 (n : Nat) : List Nat :=
  [n % 256, n / 256 % 256, n / 65536 % 256, n / 16777216 % 256]

/-- `put_u64_le` (also used for `put_f64_le`, the field being the 64-bit
pattern): the eight little-endian bytes of `n` (mod `2 ^ 64`). -/
def encU64 (n : Nat) : List Nat :=
  [n % 256, n / 256 % 256, n / 65536 % 256, n / 16777216 % 256,
   n / 4294967296 % 256, n / 1099511627776 % 256,
   n / 281474976710656 % 256, n / 72057594037927936 % 256]

/-- `put_i64_le`: two's-complement little-endian bytes of `v`. -/
def encI64 (v : Int) : List Nat :=
  encU64 (v % 18446744073709551616).toNat

/-- `put_u8`. -/
def encU8 (n : Nat) : List Nat := [n % 256]

/-- `get_u8`; `none` models the `bytes` crate panic on an empty buffer. -/
def rdU8 : List Nat → Option (Nat × List Nat)
  | b :: r => some (b, r)
  | [] => none

/-- `get_u32_le`; `none` models the panic when fewer than 4 bytes remain. -/
def rdU32 : List Nat → Option (Nat × List Nat)
  | b0 :: b1 :: b2 :: b3 :: r =>
      some (b0 + 256 * b1 + 65536 * b2 + 16777216 * b3, r)
  | _ => none

/-- `get_u64_le` / `get_f64_le`; `none` models the panic when fewer than 8
bytes remain. -/
def rdU64 : List Nat → Option (Nat × List Nat)
  | b0 :: b1 :: b2 :: b3 :: b4 :: b5 :: b6 :: b7 :: r =>
      some (b0 + 256 * b1 + 65536 * b2 + 16777216 * b3 + 4294967296 * b4
              + 1099511627776 * b5 + 281474976710656 * b6
              + 72057594037927936 * b7, r)
  | _ => none

/-- The signed value of a 64-bit pattern (two's complement). -/
def toSigned64 (n : Nat) : Int :=
  if n < 9223372036854775808 then (n : Int) else (n : Int) - 18446744073709551616

/-- `get_i64_le`. -/
def rdI64 (bs : List Nat) : Option (Int × List Nat) :=
  (rdU64 bs).map fun p => (toSigned64 p.1, p.2)

/-- `copy_to_bytes n`; `none` models the panic when fewer than `n` bytes
remain. -/
def rdBytes (n : Nat) (bs : List Nat) : Option (List Nat × List Nat) :=
  if n ≤ bs.length then some (bs.take n, bs.drop n) else none

/-- UTF-8 validity of a byte list, as `String::from_utf8` checks it
(RFC 3629: no overlong forms, no surrogates, nothing above U+10FFFF). -/
def validUtf8 : List Nat → Bool
  | [] => true
  | b :: r =>
    if b ≤ 0x7F then validUtf8 r
    else if b < 0xC2 then false
    else if b ≤ 0xDF then
      match r with
      | c1 :: r1 => (0x80 ≤ c1 && c1 ≤ 0xBF) && validUtf8 r1
      | [] => false
    else if b ≤ 0xEF then
      match r with
      | c1 :: c2 :: r2 =>
          (if b = 0xE0 then 0xA0 ≤ c1 && c1 ≤ 0xBF
           else if b = 0xED then 0x80 ≤ c1 && c1 ≤ 0x9F
           else 0x80 ≤ c1 && c1 ≤ 0xBF)
            && (0x80 ≤ c2 && c2 ≤ 0xBF) && validUtf8 r2
      | _ => false
    else if b ≤ 0xF4 then
      match r with
      | c1 :: c2 :: c3 :: r3 =>
          (if b = 0xF0 then 0x90 ≤ c1 && c1 ≤ 0xBF
           else if b = 0xF4 then 0x80 ≤ c1 && c1 ≤ 0x8F
           else 0x80 ≤ c1 && c1 ≤ 0xBF)
            && (0x80 ≤ c2 && c2 ≤ 0xBF) && (0x80 ≤ c3 && c3 ≤ 0xBF)
            && validUtf8 r3
      | _ => false
    else false

/-- `chrono::DateTime::from_timestamp_millis`: succeeds exactly on the
millisecond timestamps of chrono's representable dates
(-262144-01-01T00:00:00 UTC through 262143-12-31T23:59:59.999 UTC). -/
def from_timestamp_millis (ms : Int) : Option Int :=
  if -8334632937600000 ≤ ms ∧ ms ≤ 8210298412799999 then some ms else none

/-- The timestamp of any live `DateTime<Utc>` is in chrono's range. -/
def wfTs (ms : Int) : Bool :=
  -8334632937600000 ≤ ms && ms ≤ 8210298412799999

/-! ## Shared enums (common/src/types.rs, common/src/signals.rs)

`RiskLevel`, `Side`, `OrderType`, `FundingDirection`, `OrderResponseStatus`,
`Exchange`, `TriggerType`, `TimeInForce` each have one definition here; the
identically-shaped duplicates in `types.rs` and `signals.rs` share it. -/

inductive Exchange
  | Binance | OKX | Bybit | Bitget
deriving Repr, DecidableEq

inductive Side
  | Buy | Sell
deriving Repr, DecidableEq

inductive OrderType
  | Market | Limit | PostOnly
deriving Repr, DecidableEq

inductive TimeInForce
  | GTC | IOC | FOK | GTX
deriving Repr, DecidableEq

inductive TriggerType
  | MTTrigger | MTCloseTrigger | HedgeTrigger
deriving Repr, DecidableEq

inductive FundingDirection
  | Positive | Negative | Neutral
deriving Repr, DecidableEq

inductive RiskLevel
  | Low | Medium | High | Critical
deriving Repr, DecidableEq

inductive OrderResponseStatus
  | Filled | PartiallyFilled | Rejected | Cancelled
deriving Repr, DecidableEq

/-! Discriminants (`as u32`) and the `from_u32` decoders of binary.rs. -/

def Exchange.code : Exchange → Nat
  | .Binance => 0 | .OKX => 1 | .Bybit => 2 | .Bitget => 3

def Exchange.from_u32 (v : Nat) : Except String Exchange :=
  if v = 0 then .ok .Binance
  else if v = 1 then .ok .OKX
  else if v = 2 then .ok .Bybit
  else if v = 3 then .ok .Bitget
  else .error ("Invalid Exchange: " ++ toString v)

def Side.code : Side → Nat
  | .Buy => 0 | .Sell => 1

def Side.from_u32 (v : Nat) : Except String Side :=
  if v = 0 then .ok .Buy
  else if v = 1 then .ok .Sell
  else .error ("Invalid Side: " ++ toString v)

def OrderType.code : OrderType → Nat
  | .Market => 0 | .Limit => 1 | .PostOnly => 2

def OrderType.from_u32 (v : Nat) : Except String OrderType :=
  if v = 0 then .ok .Market
  else if v = 1 then .ok .Limit
  else if v = 2 then .ok .PostOnly
  else .error ("Invalid OrderType: " ++ toString v)

def TriggerType.code : TriggerType → Nat
  | .MTTrigger => 0 | .MTCloseTrigger => 1 | .HedgeTrigger => 2

def TriggerType.from_u32 (v : Nat) : Except String TriggerType :=
  if v = 0 then .ok .MTTrigger
  else if v = 1 then .ok .MTCloseTrigger
  else if v = 2 then .ok .HedgeTrigger
  else .error ("Invalid TriggerType: " ++ toString v)

def FundingDirection.code : FundingDirection → Nat
  | .Positive => 0 | .Negative => 1 | .Neutral => 2

def FundingDirection.from_u32 (v : Nat) : Except String FundingDirection :=
  if v = 0 then .ok .Positive
  else if v = 1 then .ok .Negative
  else if v = 2 then .ok .Neutral
  else .error ("Invalid FundingDirection: " ++ toString v)

def RiskLevel.code : RiskLevel → Nat
  | .Low => 0 | .Medium => 1 | .High => 2 | .Critical => 3

def RiskLevel.from_u32 (v : Nat) : Except String RiskLevel :=
  if v = 0 then .ok .Low
  else if v = 1 then .ok .Medium
  else if v = 2 then .ok .High
  else if v = 3 then .ok .Critical
  else .error ("Invalid RiskLevel: " ++ toString v)

def OrderResponseStatus.code : OrderResponseStatus → Nat
  | .Filled => 0 | .PartiallyFilled => 1 | .Rejected => 2 | .Cancelled => 3

def OrderResponseStatus.from_u32 (v : Nat) : Except String OrderResponseStatus :=
  if v = 0 then .ok .Filled
  else if v = 1 then .ok .PartiallyFilled
  else if v = 2 then .ok .Rejected
  else if v = 3 then .ok .Cancelled
  else .error ("Invalid OrderResponseStatus: " ++ toString v)

/-! ## Wire-format signal values (common/src/signals.rs)

The `Signal` enum of signals.rs, here named `WireSignal` (the name `Signal` is
taken by the struct of common/src/types.rs below). `f64` fields are 64-bit
patterns, `String` fields UTF-8 byte lists, timestamps millisecond epochs. -/

structure AdaptiveSpreadDeviationSignal where
  exchange_id : Nat
  symbol_id : Nat
  spread_percentile : Nat
  current_spread : Nat
  threshold_percentile : Nat
  timestamp : Int
deriving Repr, DecidableEq

structure FixedSpreadDeviationSignal where
  exchange_id : Nat
  symbol_id : Nat
  current_spread : Nat
  fixed_threshold : Nat
  timestamp : Int
deriving Repr, DecidableEq

structure FundingRateDirectionSignal where
  exchange_id : Nat
  symbol_id : Nat
  funding_rate : Nat
  direction : FundingDirection
  timestamp : Int
deriving Repr, DecidableEq

structure RealTimeFundingRiskSignal where
  exchange_id : Nat
  symbol_id : Nat
  risk_level : RiskLevel
  funding_rate : Nat
  position_cost : Nat
  timestamp : Int
deriving Repr, DecidableEq

structure OrderResponseSignal where
  order_id : List Nat
  exchange_id : Nat
  symbol_id : Nat
  status : OrderResponseStatus
  timestamp : Int
deriving Repr, DecidableEq

inductive WireSignal
  | AdaptiveSpreadDeviation (s : AdaptiveSpreadDeviationSignal)
  | FixedSpreadDeviation (s : FixedSpreadDeviationSignal)
  | FundingRateDirection (s : FundingRateDirectionSignal)
  | RealTimeFundingRisk (s : RealTimeFundingRiskSignal)
  | OrderResponse (s : OrderResponseSignal)
deriving Repr, DecidableEq

/-- `Signal::to_bytes` (binary.rs lines 29-79). -/
def WireSignal.to_bytes : WireSignal → List Nat
  | .AdaptiveSpreadDeviation s =>
      encU32 0 ++ encU32 s.exchange_id ++ encU32 s.symbol_id
        ++ encU64 s.spread_percentile ++ encU64 s.current_spread
        ++ encU64 s.threshold_percentile ++ encI64 s.timestamp
  | .FixedSpreadDeviation s =>
      encU32 1 ++ encU32 s.exchange_id ++ encU32 s.symbol_id
        ++ encU64 s.current_spread ++ encU64 s.fixed_threshold
        ++ encI64 s.timestamp
  | .FundingRateDirection s =>
      encU32 2 ++ encU32 s.exchange_id ++ encU32 s.symbol_id
        ++ encU64 s.funding_rate ++ encU32 s.direction.code
        ++ encI64 s.timestamp
  | .RealTimeFundingRisk s =>
      encU32 3 ++ encU32 s.exchange_id ++ encU32 s.symbol_id
        ++ encU32 s.risk_level.code ++ encU64 s.funding_rate
        ++ encU64 s.position_cost ++ encI64 s.timestamp
  | .OrderResponse s =>
      encU32 4 ++ encU32 s.order_id.length ++ s.order_id
        ++ encU32 s.exchange_id ++ encU32 s.symbol_id
        ++ encU32 s.status.code ++ encI64 s.timestamp

/-- `Signal::from_bytes` (binary.rs lines 81-247), with the source's literal
length checks (36, 28, 24, 32, `order_id_len + 16` — each 4 bytes short of
the fields actually read, as the adjoining size comments say). A `none`
result models the `bytes` crate panic of an unguarded read. -/
def WireSignal.from_bytes (bs : List Nat) : Option (Except String WireSignal) :=
  if bs.length < 4 then some (.error "Not enough data for signal type") else
  match rdU32 bs with
  | none => none
  | some (signal_type, b0) =>
    if signal_type = 0 then
      if b0.length < 36 then
        some (.error "Not enough data for AdaptiveSpreadDeviation")
      else
        match rdU32 b0 with
        | none => none
        | some (exchange_id, b1) =>
        match rdU32 b1 with
        | none => none
        | some (symbol_id, b2) =>
        match rdU64 b2 with
        | none => none
        | some (spread_percentile, b3) =>
        match rdU64 b3 with
        | none => none
        | some (current_spread, b4) =>
        match rdU64 b4 with
        | none => none
        | some (threshold_percentile, b5) =>
        match rdI64 b5 with
        | none => none
        | some (timestamp_millis, _) =>
          match from_timestamp_millis timestamp_millis with
          | none => some (.error "Invalid timestamp")
          | some timestamp =>
            some (.ok (.AdaptiveSpreadDeviation
              ⟨exchange_id, symbol_id, spread_percentile, current_spread,
               threshold_percentile, timestamp⟩))
    else if signal_type = 1 then
      if b0.length < 28 then
        some (.error "Not enough data for FixedSpreadDeviation")
      else
        match rdU32 b0 with
        | none => none
        | some (exchange_id, b1) =>
        match rdU32 b1 with
        | none => none
        | some (symbol_id, b2) =>
        match rdU64 b2 with
        | none => none
        | some (current_spread, b3) =>
        match rdU64 b3 with
        | none => none
        | some (fixed_threshold, b4) =>
        match rdI64 b4 with
        | none => none
        | some (timestamp_millis, _) =>
          match from_timestamp_millis timestamp_millis with
          | none => some (.error "Invalid timestamp")
          | some timestamp =>
            some (.ok (.FixedSpreadDeviation
              ⟨exchange_id, symbol_id, current_spread, fixed_threshold,
               timestamp⟩))
    else if signal_type = 2 then
      if b0.length < 24 then
        some (.error "Not enough data for FundingRateDirection")
      else
        match rdU32 b0 with
        | none => none
        | some (exchange_id, b1) =>
        match rdU32 b1 with
        | none => none
        | some (symbol_id, b2) =>
        match rdU64 b2 with
        | none => none
        | some (funding_rate, b3) =>
        match rdU32 b3 with
        | none => none
        | some (dir_raw, b4) =>
          match FundingDirection.from_u32 dir_raw with
          | .error e => some (.error e)
          | .ok direction =>
            match rdI64 b4 with
            | none => none
            | some (timestamp_millis, _) =>
              match from_timestamp_millis timestamp_millis with
              | none => some (.error "Invalid timestamp")
              | some timestamp =>
                some (.ok (.FundingRateDirection
                  ⟨exchange_id, symbol_id, funding_rate, direction, timestamp⟩))
    else if signal_type = 3 then
      if b0.length < 32 then
        some (.error "Not enough data for RealTimeFundingRisk")
      else
        match rdU32 b0 with
        | none => none
        | some (exchange_id, b1) =>
        match rdU32 b1 with
        | none => none
        | some (symbol_id, b2) =>
        match rdU32 b2 with
        | none => none
        | some (risk_raw, b3) =>
          match RiskLevel.from_u32 risk_raw with
          | .error e => some (.error e)
          | .ok risk_level =>
            match rdU64 b3 with
            | none => none
            | some (funding_rate, b4) =>
            match rdU64 b4 with
            | none => none
            | some (position_cost, b5) =>
            match rdI64 b5 with
            | none => none
            | some (timestamp_millis, _) =>
              match from_timestamp_millis timestamp_millis with
              | none => some (.error "Invalid timestamp")
              | some timestamp =>
                some (.ok (.RealTimeFundingRisk
                  ⟨exchange_id, symbol_id, risk_level, funding_rate,
                   position_cost, timestamp⟩))
    else if signal_type = 4 then
      if b0.length < 4 then
        some (.error "Not enough data for OrderResponse")
      else
        match rdU32 b0 with
        | none => none
        | some (order_id_len, b1) =>
          if b1.length < order_id_len + 16 then
            some (.error "Not enough data for OrderResponse fields")
          else
            match rdBytes order_id_len b1 with
            | none => none
            | some (order_id, b2) =>
              if validUtf8 order_id then
                match rdU32 b2 with
                | none => none
                | some (exchange_id, b3) =>
                match rdU32 b3 with
                | none => none
                | some (symbol_id, b4) =>
                match rdU32 b4 with
                | none => none
                | some (status_raw, b5) =>
                  match OrderResponseStatus.from_u32 status_raw with
                  | .error e => some (.error e)
                  | .ok status =>
                    match rdI64 b5 with
                    | none => none
                    | some (timestamp_millis, _) =>
                      match from_timestamp_millis timestamp_millis with
                      | none => some (.error "Invalid timestamp")
                      | some timestamp =>
                        some (.ok (.OrderResponse
                          ⟨order_id, exchange_id, symbol_id, status,
                           timestamp⟩))
              else some (.error "invalid utf-8 sequence")
    else some (.error ("Invalid signal type: " ++ toString signal_type))

/-! ## Wire-format trading events (common/src/events.rs, common/src/messages.rs) -/

structure OpenPositionEvent where
  symbol : Nat
  exchange : Exchange
  side : Side
  quantity : Nat
  order_type : OrderType
  price : Option Nat
  trigger_type : TriggerType
  reason : List Nat
  timestamp : Int
deriving Repr, DecidableEq

structure ClosePositionEvent where
  symbol : Nat
  exchange : Exchange
  side : Side
  quantity : Nat
  order_type : OrderType
  price : Option Nat
  trigger_type : TriggerType
  reason : List Nat
  timestamp : Int
deriving Repr, DecidableEq

structure HedgePositionEvent where
  symbol : Nat
  primary_exchange : Exchange
  hedge_exchange : Exchange
  side : Side
  quantity : Nat
  trigger_type : TriggerType
  reason : List Nat
  timestamp : Int
deriving Repr, DecidableEq

structure CancelOrderEvent where
  order_id : List Nat
  symbol : Nat
  exchange : Exchange
  reason : List Nat
  timestamp : Int
deriving Repr, DecidableEq

structure ModifyOrderEvent where
  order_id : List Nat
  symbol : Nat
  exchange : Exchange
  new_price : Option Nat
  new_quantity : Option Nat
  reason : List Nat
  timestamp : Int
deriving Repr, DecidableEq

inductive TradingEvent
  | OpenPosition (e : OpenPositionEvent)
  | ClosePosition (e : ClosePositionEvent)
  | HedgePosition (e : HedgePositionEvent)
  | CancelOrder (e : CancelOrderEvent)
  | ModifyOrder (e : ModifyOrderEvent)
deriving Repr, DecidableEq

/-- `u8 presence flag + (f64 if flag = 1)` for an `Option<f64>`. -/
def encOptF64 : Option Nat → List Nat
  | some v => encU8 1 ++ encU64 v
  | none => encU8 0

/-- `TradingEvent::to_bytes` (binary.rs lines 251-361). -/
def TradingEvent.to_bytes : TradingEvent → List Nat
  | .OpenPosition e =>
      encU32 0 ++ encU32 e.symbol ++ encU32 e.exchange.code
        ++ encU32 e.side.code ++ encU64 e.quantity
        ++ encU32 e.order_type.code ++ encOptF64 e.price
        ++ encU32 e.trigger_type.code
        ++ encU32 e.reason.length ++ e.reason ++ encI64 e.timestamp
  | .ClosePosition e =>
      encU32 1 ++ encU32 e.symbol ++ encU32 e.exchange.code
        ++ encU32 e.side.code ++ encU64 e.quantity
        ++ encU32 e.order_type.code ++ encOptF64 e.price
        ++ encU32 e.trigger_type.code
        ++ encU32 e.reason.length ++ e.reason ++ encI64 e.timestamp
  | .HedgePosition e =>
      encU32 2 ++ encU32 e.symbol ++ encU32 e.primary_exchange.code
        ++ encU32 e.hedge_exchange.code ++ encU32 e.side.code
        ++ encU64 e.quantity ++ encU32 e.trigger_type.code
        ++ encU32 e.reason.length ++ e.reason ++ encI64 e.timestamp
  | .CancelOrder e =>
      encU32 3 ++ encU32 e.order_id.length ++ e.order_id
        ++ encU32 e.symbol ++ encU32 e.exchange.code
        ++ encU32 e.reason.length ++ e.reason ++ encI64 e.timestamp
  | .ModifyOrder e =>
      encU32 4 ++ encU32 e.order_id.length ++ e.order_id
        ++ encU32 e.symbol ++ encU32 e.exchange.code
        ++ encOptF64 e.new_price ++ encOptF64 e.new_quantity
        ++ encU32 e.reason.length ++ e.reason ++ encI64 e.timestamp

/-- The decoder's `if bytes.get_u8() == 1 { Some(get_f64) } else { None }`. -/
def rdOptF64 (bs : List Nat) : Option (Option Nat × List Nat) :=
  match rdU8 bs with
  | none => none
  | some (flag, r) =>
    if flag = 1 then
      match rdU64 r with
      | none => none
      | some (v, r1) => some (some v, r1)
    else some (none, r)

/-- String field read of the event decoder: `u32 length`, `copy_to_bytes`,
`String::from_utf8`. -/
def rdStr (bs : List Nat) : Option (Except String (List Nat × List Nat)) :=
  match rdU32 bs with
  | none => none
  | some (len, r) =>
    match rdBytes len r with
    | none => none
    | some (s, r1) =>
      if validUtf8 s then some (.ok (s, r1))
      else some (.error "invalid utf-8 sequence")

/-- Timestamp tail of every event decoder arm: `get_i64_le` then
`DateTime::from_timestamp_millis`. -/
def rdTs (bs : List Nat) : Option (Except String (Int × List Nat)) :=
  match rdI64 bs with
  | none => none
  | some (ms, r) =>
    match from_timestamp_millis ms with
    | none => some (.error "Invalid timestamp")
    | some t => some (.ok (t, r))

/-- `TradingEvent::from_bytes` (binary.rs lines 363-560). After the 4-byte
tag check the source does no remaining-length checks at all: every read is an
unguarded `bytes` crate accessor, so `none` (panic) is reachable on truncated
input. -/
def TradingEvent.from_bytes (bs : List Nat) : Option (Except String TradingEvent) :=
  if bs.length < 4 then some (.error "Not enough data for event type") else
  match rdU32 bs with
  | none => none
  | some (event_type, b0) =>
    if event_type = 0 then
      match rdU32 b0 with
      | none => none
      | some (symbol, b1) =>
      match rdU32 b1 with
      | none => none
      | some (exch_raw, b2) =>
        match Exchange.from_u32 exch_raw with
        | .error e => some (.error e)
        | .ok exchange =>
        match rdU32 b2 with
        | none => none
        | some (side_raw, b3) =>
          match Side.from_u32 side_raw with
          | .error e => some (.error e)
          | .ok side =>
          match rdU64 b3 with
          | none => none
          | some (quantity, b4) =>
          match rdU32 b4 with
          | none => none
          | some (ot_raw, b5) =>
            match OrderType.from_u32 ot_raw with
            | .error e => some (.error e)
            | .ok order_type =>
            match rdOptF64 b5 with
            | none => none
            | some (price, b6) =>
            match rdU32 b6 with
            | none => none
            | some (tt_raw, b7) =>
              match TriggerType.from_u32 tt_raw with
              | .error e => some (.error e)
              | .ok trigger_type =>
              match rdStr b7 with
              | none => none
              | some (.error e) => some (.error e)
              | some (.ok (reason, b8)) =>
              match rdTs b8 with
              | none => none
              | some (.error e) => some (.error e)
              | some (.ok (timestamp, _)) =>
                some (.ok (.OpenPosition
                  ⟨symbol, exchange, side, quantity, order_type, price,
                   trigger_type, reason, timestamp⟩))
    else if event_type = 1 then
      match rdU32 b0 with
      | none => none
      | some (symbol, b1) =>
      match rdU32 b1 with
      | none => none
      | some (exch_raw, b2) =>
        match Exchange.from_u32 exch_raw with
        | .error e => some (.error e)
        | .ok exchange =>
        match rdU32 b2 with
        | none => none
        | some (side_raw, b3) =>
          match Side.from_u32 side_raw with
          | .error e => some (.error e)
          | .ok side =>
          match rdU64 b3 with
          | none => none
          | some (quantity, b4) =>
          match rdU32 b4 with
          | none => none
          | some (ot_raw, b5) =>
            match OrderType.from_u32 ot_raw with
            | .error e => some (.error e)
            | .ok order_type =>
            match rdOptF64 b5 with
            | none => none
            | some (price, b6) =>
            match rdU32 b6 with
            | none => none
            | some (tt_raw, b7) =>
              match TriggerType.from_u32 tt_raw with
              | .error e => some (.error e)
              | .ok trigger_type =>
              match rdStr b7 with
              | none => none
              | some (.error e) => some (.error e)
              | some (.ok (reason, b8)) =>
              match rdTs b8 with
              | none => none
              | some (.error e) => some (.error e)
              | some (.ok (timestamp, _)) =>
                some (.ok (.ClosePosition
                  ⟨symbol, exchange, side, quantity, order_type, price,
                   trigger_type, reason, timestamp⟩))
    else if event_type = 2 then
      match rdU32 b0 with
      | none => none
      | some (symbol, b1) =>
      match rdU32 b1 with
      | none => none
      | some (pe_raw, b2) =>
        match Exchange.from_u32 pe_raw with
        | .error e => some (.error e)
        | .ok primary_exchange =>
        match rdU32 b2 with
        | none => none
        | some (he_raw, b3) =>
          match Exchange.from_u32 he_raw with
          | .error e => some (.error e)
          | .ok hedge_exchange =>
          match rdU32 b3 with
          | none => none
          | some (side_raw, b4) =>
            match Side.from_u32 side_raw with
            | .error e => some (.error e)
            | .ok side =>
            match rdU64 b4 with
            | none => none
            | some (quantity, b5) =>
            match rdU32 b5 with
            | none => none
            | some (tt_raw, b6) =>
              match TriggerType.from_u32 tt_raw with
              | .error e => some (.error e)
              | .ok trigger_type =>
              match rdStr b6 with
              | none => none
              | some (.error e) => some (.error e)
              | some (.ok (reason, b7)) =>
              match rdTs b7 with
              | none => none
              | some (.error e) => some (.error e)
              | some (.ok (timestamp, _)) =>
                some (.ok (.HedgePosition
                  ⟨symbol, primary_exchange, hedge_exchange, side, quantity,
                   trigger_type, reason, timestamp⟩))
    else if event_type = 3 then
      match rdStr b0 with
      | none => none
      | some (.error e) => some (.error e)
      | some (.ok (order_id, b1)) =>
      match rdU32 b1 with
      | none => none
      | some (symbol, b2) =>
      match rdU32 b2 with
      | none => none
      | some (exch_raw, b3) =>
        match Exchange.from_u32 exch_raw with
        | .error e => some (.error e)
        | .ok exchange =>
        match rdStr b3 with
        | none => none
        | some (.error e) => some (.error e)
        | some (.ok (reason, b4)) =>
        match rdTs b4 with
        | none => none
        | some (.error e) => some (.error e)
        | some (.ok (timestamp, _)) =>
          some (.ok (.CancelOrder ⟨order_id, symbol, exchange, reason, timestamp⟩))
    else if event_type = 4 then
      match rdStr b0 with
      | none => none
      | some (.error e) => some (.error e)
      | some (.ok (order_id, b1)) =>
      match rdU32 b1 with
      | none => none
      | some (symbol, b2) =>
      match rdU32 b2 with
      | none => none
      | some (exch_raw, b3) =>
        match Exchange.from_u32 exch_raw with
        | .error e => some (.error e)
        | .ok exchange =>
        match rdOptF64 b3 with
        | none => none
        | some (new_price, b4) =>
        match rdOptF64 b4 with
        | none => none
        | some (new_quantity, b5) =>
        match rdStr b5 with
        | none => none
        | some (.error e) => some (.error e)
        | some (.ok (reason, b6)) =>
        match rdTs b6 with
        | none => none
        | some (.error e) => some (.error e)
        | some (.ok (timestamp, _)) =>
          some (.ok (.ModifyOrder
            ⟨order_id, symbol, exchange, new_price, new_quantity, reason,
             timestamp⟩))
    else some (.error ("Invalid event type: " ++ toString event_type))

/-- `EventMessage` (messages.rs): an event with a `u64` sequence id and an
`i64` millisecond timestamp. -/
structure EventMessage where
  event : TradingEvent
  sequence_id : Nat
  timestamp : Int
deriving Repr, DecidableEq

/-- `EventMessage::to_bytes` (binary.rs lines 564-573):
`event_body || u64 sequence_id || i64 timestamp_ms`. -/
def EventMessage.to_bytes (m : EventMessage) : List Nat :=
  m.event.to_bytes ++ encU64 (m.sequence_id % 18446744073709551616)
    ++ encI64 m.timestamp

/-- `EventMessage::from_bytes` (binary.rs lines 575-603): splits the trailing
16 bytes, decodes the event body from the rest. -/
def EventMessage.from_bytes (bs : List Nat) : Option (Except String EventMessage) :=
  if bs.length < 16 then some (.error "Not enough data for EventMessage") else
  let event_bytes := bs.take (bs.length - 16)
  let metadata_bytes := bs.drop (bs.length - 16)
  match TradingEvent.from_bytes event_bytes with
  | none => none
  | some (.error e) => some (.error e)
  | some (.ok event) =>
    match rdU64 metadata_bytes with
    | none => none
    | some (sequence_id, mb1) =>
      match rdI64 mb1 with
      | none => none
      | some (timestamp_millis, _) =>
        match from_timestamp_millis timestamp_millis with
        | none => some (.error "Invalid timestamp")
        | some timestamp => some (.ok ⟨event, sequence_id, timestamp⟩)

/-! ## Well-formed wire values

A value is well-formed when it can arise from the live Rust structs: machine
integers in range, `f64` fields an actual 64-bit pattern, strings valid UTF-8
with a length representable as `u32`, timestamps in chrono's range. -/

def wfU32 (n : Nat) : Bool := n < 4294967296

def wfF64 (b : Nat) : Bool := b < 18446744073709551616

def wfStr (s : List Nat) : Bool := validUtf8 s && s.length < 4294967296

def WireSignal.wf : WireSignal → Bool
  | .AdaptiveSpreadDeviation s =>
      wfU32 s.exchange_id && wfU32 s.symbol_id && wfF64 s.spread_percentile
        && wfF64 s.current_spread && wfF64 s.threshold_percentile
        && wfTs s.timestamp
  | .FixedSpreadDeviation s =>
      wfU32 s.exchange_id && wfU32 s.symbol_id && wfF64 s.current_spread
        && wfF64 s.fixed_threshold && wfTs s.timestamp
  | .FundingRateDirection s =>
      wfU32 s.exchange_id && wfU32 s.symbol_id && wfF64 s.funding_rate
        && wfTs s.timestamp
  | .RealTimeFundingRisk s =>
      wfU32 s.exchange_id && wfU32 s.symbol_id && wfF64 s.funding_rate
        && wfF64 s.position_cost && wfTs s.timestamp
  | .OrderResponse s =>
      wfStr s.order_id && wfU32 s.exchange_id && wfU32 s.symbol_id
        && wfTs s.timestamp

def wfOptF64 : Option Nat → Bool
  | some v => wfF64 v
  | none => true

def TradingEvent.wf : TradingEvent → Bool
  | .OpenPosition e =>
      wfU32 e.symbol && wfF64 e.quantity && wfOptF64 e.price
        && wfStr e.reason && wfTs e.timestamp
  | .ClosePosition e =>
      wfU32 e.symbol && wfF64 e.quantity && wfOptF64 e.price
        && wfStr e.reason && wfTs e.timestamp
  | .HedgePosition e =>
      wfU32 e.symbol && wfF64 e.quantity && wfStr e.reason && wfTs e.timestamp
  | .CancelOrder e =>
      wfStr e.order_id && wfU32 e.symbol && wfStr e.reason && wfTs e.timestamp
  | .ModifyOrder e =>
      wfStr e.order_id && wfU32 e.symbol && wfOptF64 e.new_price
        && wfOptF64 e.new_quantity && wfStr e.reason && wfTs e.timestamp

def EventMessage.wf (m : EventMessage) : Bool :=
  m.event.wf && m.sequence_id < 18446744073709551616 && wfTs m.timestamp

/-! ## Association-list helpers (models of `HashMap` / `DashMap` operations) -/

/-- Replace the value of the first entry with key `k` (no-op when absent):
`get_mut` followed by assignment. -/
def alist_update {α : Type} (l : List (String × α)) (k : String) (f : α → α) :
    List (String × α) :=
  match l with
  | [] => []
  | (k1, v) :: r =>
      if k1 = k then (k1, f v) :: r else (k1, v) :: alist_update r k f

/-- `entry(k).or_insert(d)` then mutate: update in place when present, append
a fresh entry otherwise. -/
def alist_upsert {α : Type} (l : List (String × α)) (k : String) (d : α)
    (f : α → α) : List (String × α) :=
  match l with
  | [] => [(k, f d)]
  | (k1, v) :: r =>
      if k1 = k then (k1, f v) :: r else (k1, v) :: alist_upsert r k d f

/-! ## Order state machine (pre-post-processor/src/order/order_state.rs) -/

inductive OrderState
  | Created | Validated | Submitting | Submitted | Acknowledged
  | PartiallyFilled | Filled | Cancelled | Rejected | Expired | Failed
deriving Repr, DecidableEq

/-- `OrderState::is_terminal`. -/
def OrderState.is_terminal : OrderState → Bool
  | .Filled | .Cancelled | .Rejected | .Expired | .Failed => true
  | _ => false

/-- `OrderState::is_active`. -/
def OrderState.is_active : OrderState → Bool
  | .Submitting | .Submitted | .Acknowledged | .PartiallyFilled => true
  | _ => false

/-- `OrderState::can_cancel`. -/
def OrderState.can_cancel : OrderState → Bool
  | .Created | .Validated | .Submitting | .Submitted | .Acknowledged
  | .PartiallyFilled => true
  | _ => false

/-- `StateTransitionEvent` (order_state.rs lines 96-118); `Decimal` payloads
as `Rat`. -/
inductive StateTransitionEvent
  | Validate
  | Submit
  | SubmitSuccess (exchange_order_id : String)
  | SubmitFailed (reason : String)
  | Acknowledge
  | Reject (reason : String)
  | PartialFill (qty px : Rat)
  | Fill
  | Cancel
  | CancelConfirmed
  | Expire
  | SystemError (reason : String)
deriving Repr, DecidableEq

/-- `OrderStateMachine::get_next_state` (order_state.rs lines 153-210): the
match arms of the source in order, guards included. -/
def get_next_state (current : OrderState) (event : StateTransitionEvent) :
    Except String OrderState :=
  match current, event with
  | .Created, .Validate => .ok .Validated
  | .Validated, .Submit => .ok .Submitting
  | .Submitting, .SubmitSuccess _ => .ok .Submitted
  | .Submitting, .SubmitFailed _ => .ok .Failed
  | .Submitted, .Acknowledge => .ok .Acknowledged
  | .Submitted, .Reject _ => .ok .Rejected
  | .Acknowledged, .PartialFill _ _ => .ok .PartiallyFilled
  | .Acknowledged, .Fill => .ok .Filled
  | .PartiallyFilled, .PartialFill _ _ => .ok .PartiallyFilled
  | .PartiallyFilled, .Fill => .ok .Filled
  | s, .Cancel =>
      if s.can_cancel then .ok .Cancelled else .error "Invalid state transition"
  | .Cancelled, .CancelConfirmed => .ok .Cancelled
  | s, .Expire =>
      if s.is_active then .ok .Expired else .error "Invalid state transition"
  | s, .SystemError _ =>
      if !s.is_terminal then .ok .Failed else .error "Invalid state transition"
  | _, _ => .error "Invalid state transition"

/-- `StateTransitionHistory` (order_state.rs lines 225-231). -/
structure StateTransitionHistory where
  from_state : OrderState
  to_state : OrderState
  event : StateTransitionEvent
  timestamp : Int
  details : Option String
deriving Repr, DecidableEq

/-- `StateManager` (order_state.rs lines 234-240): a state machine (its
current state) and a history list per order id. -/
structure StateManager where
  machines : List (String × OrderState)
  histories : List (String × List StateTransitionHistory)
deriving Repr, DecidableEq

/-- `StateManager::transition_order` (order_state.rs lines 259-283): look the
machine up, compute the next state, record a history entry on success. The
error cases return no new manager — the caller's maps are untouched. -/
def StateManager.transition_order (m : StateManager) (order_id : String)
    (event : StateTransitionEvent) (now : Int) :
    Except String (OrderState × StateManager) :=
  match m.machines.lookup order_id with
  | none => .error ("Order " ++ order_id ++ " not found")
  | some from_state =>
    match get_next_state from_state event with
    | .error e => .error e
    | .ok to_state =>
      .ok (to_state,
        { machines := alist_update m.machines order_id fun _ => to_state,
          histories := alist_update m.histories order_id fun h =>
            h ++ [⟨from_state, to_state, event, now, none⟩] })

/-- The transition table of spec section 4.6, following the spec's words:
the ten listed edges plus `Cancel` from any cancellable state, `Expire` from
any active state and `SystemError` from any non-terminal state. `none` means
the pair is not in the table. -/
def spec_edge (s : OrderState) (e : StateTransitionEvent) : Option OrderState :=
  match s, e with
  | .Created, .Validate => some .Validated
  | .Validated, .Submit => some .Submitting
  | .Submitting, .SubmitSuccess _ => some .Submitted
  | .Submitting, .SubmitFailed _ => some .Failed
  | .Submitted, .Acknowledge => some .Acknowledged
  | .Submitted, .Reject _ => some .Rejected
  | .Acknowledged, .PartialFill _ _ => some .PartiallyFilled
  | .Acknowledged, .Fill => some .Filled
  | .PartiallyFilled, .PartialFill _ _ => some .PartiallyFilled
  | .PartiallyFilled, .Fill => some .Filled
  | s, .Cancel => if s.can_cancel then some .Cancelled else none
  | s, .Expire => if s.is_active then some .Expired else none
  | s, .SystemError _ => if !s.is_terminal then some .Failed else none
  | _, _ => none

/-- The spec table amended by the one extra edge the source accepts:
`(Cancelled, CancelConfirmed) → Cancelled`. -/
def spec_edge_amended (s : OrderState) (e : StateTransitionEvent) :
    Option OrderState :=
  match s, e with
  | .Cancelled, .CancelConfirmed => some .Cancelled
  | _, _ => spec_edge s e

/-! ## Pre/post-processor orders (pre-post-processor/src/order/order.rs) -/

/-- The `Signal` struct of common/src/types.rs (the fields
`Order::from_signal` and the risk rules read; `f64` as `Rat`, with `None`
standing for NaN/infinite values that `Decimal::from_f64` rejects). -/
structure Signal where
  id : String
  symbol : String
  exchange : String
  side : Option Side
  price : Option Rat
  quantity : Option Rat
  source : String
  priority : Nat
  metadata : List (String × String)
  timestamp : Int
  is_hedge_type : Bool
deriving Repr, DecidableEq

/-- `OrderMetadata` (order.rs lines 53-60). -/
structure OrderMetadata where
  strategy : String
  exchange : String
  account : String
  tags : List String
  notes : Option String
deriving Repr, DecidableEq

/-- `Order` (order.rs lines 11-50); `Decimal` as `Rat`, timestamps as
millisecond epochs. -/
structure Order where
  client_order_id : String
  exchange_order_id : Option String
  signal_id : String
  symbol : String
  side : Side
  order_type : OrderType
  time_in_force : TimeInForce
  price : Rat
  quantity : Rat
  executed_quantity : Rat
  executed_price : Rat
  remaining_quantity : Rat
  state : OrderState
  created_at : Int
  updated_at : Int
  submitted_at : Option Int
  filled_at : Option Int
  priority : Nat
  max_retry : Nat
  retry_count : Nat
  arbitrage_id : Option String
  hedge_order_id : Option String
  is_hedge : Bool
  metadata : OrderMetadata
deriving Repr, DecidableEq

/-- `Order::generate_client_order_id` (order.rs lines 109-114). Its doc
comment promises a deterministic id derived from a hash of the signal id, but
the body draws a fresh uuid4 and ignores `signal_id`; the fresh uuid is the
explicit `uuid4` parameter here. -/
def Order.generate_client_order_id (signal_id : String) (uuid4 : String) :
    String :=
  "ORD_" ++ uuid4

/-- `Order::from_signal` (order.rs lines 64-107); `uuid4` and `now` are the
call's nondeterministic inputs. -/
def Order.from_signal (signal : Signal) (uuid4 : String) (now : Int) : Order :=
  { client_order_id := Order.generate_client_order_id signal.id uuid4,
    exchange_order_id := none,
    signal_id := signal.id,
    symbol := signal.symbol,
    side := signal.side.getD .Buy,
    order_type := .Market,
    time_in_force := .IOC,
    price := signal.price.getD 0,
    quantity := signal.quantity.getD 0,
    executed_quantity := 0,
    executed_price := 0,
    remaining_quantity := signal.quantity.getD 0,
    state := .Created,
    created_at := now,
    updated_at := now,
    submitted_at := none,
    filled_at := none,
    priority := 5,
    max_retry := 3,
    retry_count := 0,
    arbitrage_id := signal.metadata.lookup "arbitrage_id",
    hedge_order_id := none,
    is_hedge := signal.is_hedge_type,
    metadata :=
      { strategy := signal.source,
        exchange := signal.exchange,
        account := (signal.metadata.lookup "account").getD "default",
        tags := [],
        notes := none } }

/-- `Order::update_execution` (order.rs lines 146-165). -/
def Order.update_execution (o : Order) (executed_qty executed_price : Rat)
    (now : Int) : Order :=
  let total_executed := o.executed_quantity + executed_qty
  let new_price :=
    if total_executed > 0 then
      (o.executed_price * o.executed_quantity + executed_price * executed_qty)
        / total_executed
    else o.executed_price
  let remaining := o.quantity - total_executed
  { o with
    executed_price := new_price,
    executed_quantity := total_executed,
    remaining_quantity := remaining,
    updated_at := now,
    state :=
      if remaining ≤ 0 then .Filled
      else if total_executed > 0 then .PartiallyFilled
      else o.state,
    filled_at := if remaining ≤ 0 then some now else o.filled_at }

/-- A fill sequence applied in order through `update_execution`. -/
def Order.apply_fills (o : Order) (fills : List (Rat × Rat)) (now : Int) :
    Order :=
  fills.foldl (fun acc f => acc.update_execution f.1 f.2 now) o

/-- The quantity-weighted average price of a fill list (`Σ px·qty / Σ qty`). -/
def weighted_avg (fills : List (Rat × Rat)) : Rat :=
  (fills.map fun f => f.2 * f.1).sum / (fills.map fun f => f.1).sum

/-! ## Arbitrage coordinator (pre-post-processor/src/order/arbitrage.rs) -/

inductive ArbitrageState
  | Created | MakerPending | MakerFilled | TakerPending | BothPending
  | Completed | PartialSuccess | Failed | Cancelled
deriving Repr, DecidableEq

/-- `ArbitragePair` (arbitrage.rs lines 22-37). -/
structure ArbitragePair where
  id : String
  maker_order_id : Option String
  taker_order_id : Option String
  symbol : String
  quantity : Rat
  maker_price : Rat
  taker_price : Rat
  expected_profit : Rat
  actual_profit : Option Rat
  state : ArbitrageState
  created_at : Int
  completed_at : Option Int
  maker_status : Option OrderState
  taker_status : Option OrderState
deriving Repr, DecidableEq

/-- `matches!(status, Some(Filled))` of `update_arbitrage_state`. -/
def leg_filled : Option OrderState → Bool
  | some .Filled => true
  | _ => false

/-- `matches!(status, Some(Cancelled) | Some(Rejected) | Some(Failed))`. -/
def leg_failed : Option OrderState → Bool
  | some .Cancelled | some .Rejected | some .Failed => true
  | _ => false

/-- `ArbitrageManager::calculate_actual_profit` (arbitrage.rs lines 274-278):
`expected_profit * Decimal::from_f64(0.95)`. -/
def calculate_actual_profit (p : ArbitragePair) : ArbitragePair :=
  { p with actual_profit := some (p.expected_profit * (95 / 100 : Rat)) }

/-- `ArbitrageManager::update_arbitrage_state` (arbitrage.rs lines 202-244),
the pair-mutating part (the `stats` bookkeeping that follows touches no pair
field). -/
def update_arbitrage_state (p : ArbitragePair) (now : Int) : ArbitragePair :=
  let maker_filled := leg_filled p.maker_status
  let taker_filled := leg_filled p.taker_status
  let maker_failed := leg_failed p.maker_status
  let taker_failed := leg_failed p.taker_status
  match maker_filled, taker_filled, maker_failed, taker_failed with
  | true, true, _, _ =>
      { calculate_actual_profit p with
        completed_at := some now, state := .Completed }
  | true, false, _, true =>
      { p with completed_at := some now, state := .PartialSuccess }
  | false, true, true, _ =>
      { p with completed_at := some now, state := .PartialSuccess }
  | false, false, true, true =>
      { p with completed_at := some now, state := .Failed }
  | true, false, _, false => { p with state := .MakerFilled }
  | _, _, _, _ => p

/-- The decision table of spec section 4.8, following the spec's words: the
next pair state as a function of the four leg booleans and the current
state. -/
def spec_pair_state (m_fill t_fill m_fail t_fail : Bool)
    (current : ArbitrageState) : ArbitrageState :=
  if m_fill && t_fill then .Completed
  else if m_fill && !t_fill && t_fail then .PartialSuccess
  else if !m_fill && t_fill && m_fail then .PartialSuccess
  else if !m_fill && !t_fill && m_fail && t_fail then .Failed
  else if m_fill && !t_fill && !t_fail then .MakerFilled
  else current

/-! ## Risk rule chain (pre-post-processor/src/risk_control/risk_rules.rs) -/

/-- The `RiskRule` trait capability view: `check` and `is_critical`, over
abstract signal and state types. -/
structure RiskRule (σ τ : Type) where
  name : String
  check : σ → τ → Except String Bool
  is_critical : Bool

/-- `RiskRuleChain::check_all` (risk_rules.rs lines 429-453): rules in
registration order; a critical `Ok(false)` returns the veto, a critical `Err`
propagates, non-critical outcomes never stop the chain. -/
def check_all {σ τ : Type} (rules : List (RiskRule σ τ)) (signal : σ)
    (state : τ) : Except String Bool :=
  match rules with
  | [] => .ok true
  | r :: rest =>
    match r.check signal state with
    | .ok true => check_all rest signal state
    | .ok false =>
        if r.is_critical then .ok false else check_all rest signal state
    | .error e =>
        if r.is_critical then .error e else check_all rest signal state

/-- A rule is decisive for an input when it is critical and its outcome is a
veto (`Ok(false)`) or an error: exactly the outcomes that stop the chain. -/
def decisive {σ τ : Type} (signal : σ) (state : τ) (r : RiskRule σ τ) : Bool :=
  r.is_critical &&
    match r.check signal state with
    | .ok true => false
    | _ => true

/-! ## Risk state (pre-post-processor/src/risk_control/risk_state.rs) -/

/-- The `OrderStatus` enum of common/src/types.rs (execution reports). -/
inductive OrderStatus
  | Pending | Placed | PartiallyFilled | Filled | Cancelled | Rejected
deriving Repr, DecidableEq

/-- `ExecutionReport` (common/src/types.rs lines 114-127), the fields
`process_execution` reads; `symbol` is the report symbol's Debug string, the
key `process_execution` derives with `format!`. -/
structure ExecutionReport where
  order_id : String
  client_order_id : String
  symbol : String
  side : Side
  price : Rat
  filled_quantity : Rat
  status : OrderStatus
deriving Repr, DecidableEq

/-- `SymbolRiskState` (risk_state.rs lines 28-50). -/
structure SymbolRiskState where
  symbol : String
  position : Rat
  capital_used : Rat
  pending_orders : Nat
  daily_trades : Nat
  last_trade_time : Option Int
  trades_in_window : Nat
  realized_pnl : Rat
  unrealized_pnl : Rat
  max_drawdown : Rat
  is_restricted : Bool
  restriction_reason : Option String
  restriction_until : Option Int
deriving Repr, DecidableEq

/-- `SymbolRiskState::new`. -/
def SymbolRiskState.new (symbol : String) : SymbolRiskState :=
  { symbol := symbol, position := 0, capital_used := 0, pending_orders := 0,
    daily_trades := 0, last_trade_time := none, trades_in_window := 0,
    realized_pnl := 0, unrealized_pnl := 0, max_drawdown := 0,
    is_restricted := false, restriction_reason := none,
    restriction_until := none }

/-- `SymbolRiskState::update_trade_stats` (risk_state.rs lines 88-92). -/
def SymbolRiskState.update_trade_stats (s : SymbolRiskState) (now : Int) :
    SymbolRiskState :=
  { s with daily_trades := s.daily_trades + 1,
           trades_in_window := s.trades_in_window + 1,
           last_trade_time := some now }

/-- `GlobalRiskState` (risk_state.rs lines 120-138). -/
structure GlobalRiskState where
  total_exposure : Rat
  total_capital_used : Rat
  total_positions : Nat
  daily_trades : Nat
  daily_pnl : Rat
  max_daily_drawdown : Rat
  risk_level : RiskLevel
  last_risk_check : Int
  global_restricted : Bool
  restriction_reason : Option String
deriving Repr, DecidableEq

/-- The exposure-to-level map inside `GlobalRiskState::update_risk_level`
(risk_state.rs lines 157-173): strict comparisons against 0.03, 0.025,
0.015. -/
def risk_level_of (total_exposure : Rat) : RiskLevel :=
  if total_exposure > 3 / 100 then .Critical
  else if total_exposure > 25 / 1000 then .High
  else if total_exposure > 15 / 1000 then .Medium
  else .Low

/-- `GlobalRiskState::update_risk_level`. -/
def GlobalRiskState.update_risk_level (g : GlobalRiskState) (now : Int) :
    GlobalRiskState :=
  { g with risk_level := risk_level_of g.total_exposure, last_risk_check := now }

/-- `RiskState` (risk_state.rs lines 12-24), the two components
`process_execution` touches. -/
structure RiskState where
  symbol_states : List (String × SymbolRiskState)
  global_state : GlobalRiskState
deriving Repr, DecidableEq

/-- `Σ |capital_used|` over the symbol states. -/
def sum_abs_capital (l : List (String × SymbolRiskState)) : Rat :=
  (l.map fun e => |e.2.capital_used|).sum

/-- `Σ capital_used` over the symbol states. -/
def sum_capital (l : List (String × SymbolRiskState)) : Rat :=
  (l.map fun e => e.2.capital_used).sum

/-- `RiskState::recalculate_global_exposure` (risk_state.rs lines 283-300). -/
def RiskState.recalculate_global_exposure (st : RiskState) (now : Int) :
    RiskState :=
  let g :=
    { st.global_state with
      total_exposure := sum_abs_capital st.symbol_states,
      total_positions :=
        (st.symbol_states.filter
          fun (e : String × SymbolRiskState) => e.2.position ≠ 0).length,
      total_capital_used := sum_capital st.symbol_states }
  { st with global_state := g.update_risk_level now }

/-- The per-symbol mutation of `process_execution` (risk_state.rs lines
256-274): position and capital by side, then — only when the report status is
`Filled` — trade stats and a saturating `pending_orders` decrement. -/
def process_execution_symbol (s : SymbolRiskState) (r : ExecutionReport)
    (now : Int) : SymbolRiskState :=
  let s1 :=
    if r.side = .Buy then
      { s with position := s.position + r.filled_quantity,
               capital_used := s.capital_used + r.price * r.filled_quantity }
    else
      { s with position := s.position - r.filled_quantity,
               capital_used := s.capital_used - r.price * r.filled_quantity }
  if r.status = .Filled then
    let s2 := s1.update_trade_stats now
    { s2 with pending_orders := s2.pending_orders - 1 }
  else s1

/-- `RiskState::process_execution` (risk_state.rs lines 250-280). -/
def RiskState.process_execution (st : RiskState) (r : ExecutionReport)
    (now : Int) : RiskState :=
  let symbol_states :=
    alist_upsert st.symbol_states r.symbol (SymbolRiskState.new r.symbol)
      fun s => process_execution_symbol s r now
  let global_state :=
    if r.status = .Filled then
      { st.global_state with daily_trades := st.global_state.daily_trades + 1 }
    else st.global_state
  RiskState.recalculate_global_exposure
    { symbol_states := symbol_states, global_state := global_state } now

/-! ## Health tracker (trading-engine/src/health/health_tracker.rs) -/

/-- `HealthMetrics` (health_tracker.rs lines 6-18); `f64` scores as `Rat`,
`Instant` as `Int`, `Uuid` as `String`. -/
structure HealthMetrics where
  connection_id : String
  exchange : String
  market_type : String
  health_score : Rat
  rtt_ms : Rat
  success_rate : Rat
  total_messages : Nat
  total_errors : Nat
  last_update : Int
  consecutive_failures : Nat
deriving Repr, DecidableEq

/-- `HealthMetrics::new` (health_tracker.rs lines 20-34). -/
def HealthMetrics.new (connection_id exchange market_type : String)
    (now : Int) : HealthMetrics :=
  { connection_id := connection_id, exchange := exchange,
    market_type := market_type, health_score := 100, rtt_ms := 0,
    success_rate := 100, total_messages := 0, total_errors := 0,
    last_update := now, consecutive_failures := 0 }

/-- `HealthMetrics::is_healthy` (health_tracker.rs lines 106-109). -/
def HealthMetrics.is_healthy (m : HealthMetrics) : Bool :=
  m.health_score ≥ 50 && m.consecutive_failures < 5

/-- `HealthTracker` (health_tracker.rs lines 111-113): the metrics map. -/
structure HealthTracker where
  metrics : List (String × HealthMetrics)
deriving Repr, DecidableEq

/-- `HealthTracker::register_connection` (health_tracker.rs lines 122-125):
`DashMap::insert` of fresh metrics (replacing any previous entry). -/
def HealthTracker.register_connection (t : HealthTracker)
    (connection_id exchange market_type : String) (now : Int) : HealthTracker :=
  { metrics :=
      (connection_id, HealthMetrics.new connection_id exchange market_type now)
        :: (t.metrics.filter fun e => e.1 ≠ connection_id) }

/-- `HealthTracker::get_metrics`. -/
def HealthTracker.get_metrics (t : HealthTracker) (connection_id : String) :
    Option HealthMetrics :=
  t.metrics.lookup connection_id

/-! ## Order executor idempotence (trading-engine/src/executor) -/

/-- The `used_ids` map of `IdempotentManager` (idempotent.rs lines 6-9):
client order id → insertion timestamp. -/
def IdemMap : Type := List (String × Int)

/-- `IdempotentManager::generate_client_order_id` (idempotent.rs lines
19-24): mints `pfx_commandId_timestampMillis` and inserts it into `used_ids`
before returning. -/
def generate_client_order_id (pfx : String) (command_id : String) (now : Int)
    (m : IdemMap) : String × IdemMap :=
  let id := pfx ++ "_" ++ command_id ++ "_" ++ toString now
  (id, (id, now) :: m)

/-- `IdempotentManager::is_duplicate` (idempotent.rs lines 26-28). -/
def is_duplicate (m : IdemMap) (client_order_id : String) : Bool :=
  (List.lookup client_order_id m).isSome

/-- The outcome of the id-minting and duplicate check that opens
`OrderExecutor::execute`: `dup` is the early return
`{success: false, error: "Duplicate order"}` with no fan-out;
`proceed` continues toward signing and fan-out. -/
inductive ExecuteStep
  | dup
  | proceed (client_order_id : String)
deriving Repr, DecidableEq

/-- `OrderExecutor::execute`, lines 52-72 of executor.rs: use the command's
explicit client order id when present, otherwise mint one through
`generate_client_order_id` (which records it in `used_ids`), then return the
Duplicate reply when `is_duplicate` finds the id in `used_ids`. -/
def execute_dedup_step (pfx : String) (command_id : String)
    (explicit_id : Option String) (now : Int) (m : IdemMap) :
    ExecuteStep × IdemMap :=
  let minted :=
    match explicit_id with
    | some id => (id, m)
    | none => generate_client_order_id pfx command_id now m
  if is_duplicate minted.2 minted.1 then (.dup, minted.2)
  else (.proceed minted.1, minted.2)

/-! # Theorems -/

/-! ## Health tracker (C10) -/

/-- C10: immediately after `register_connection`, before any success or
failure is recorded, the connection's metrics read `health_score = 100`,
`success_rate = 100`, `consecutive_failures = 0`, and `is_healthy()` is
true — a brand-new connection is eligible for fan-out selection. -/
theorem register_connection_fresh_metrics_healthy (t : HealthTracker)
    (connection_id exchange market_type : String) (now : Int) :
    (t.register_connection connection_id exchange market_type now).get_metrics
        connection_id
      = some (HealthMetrics.new connection_id exchange market_type now)
    ∧ (HealthMetrics.new connection_id exchange market_type now).health_score
        = 100
    ∧ (HealthMetrics.new connection_id exchange market_type now).success_rate
        = 100
    ∧ (HealthMetrics.new connection_id exchange market_type
        now).consecutive_failures = 0
    ∧ (HealthMetrics.new connection_id exchange market_type now).is_healthy
        = true := by
  refine ⟨?_, rfl, rfl, rfl,
    by simp [HealthMetrics.new, HealthMetrics.is_healthy]; norm_num⟩
  simp [HealthTracker.register_connection, HealthTracker.get_metrics,
    List.lookup]

/-! ## Executor idempotence (C1, C2) -/

/-- C1: with an auto-generated client order id, every `execute` call — the
first included — takes the Duplicate early-return: `generate_client_order_id`
inserts the freshly minted id into `used_ids` before `is_duplicate` looks it
up, so the duplicate check always fires and no fan-out ever happens on this
path. -/
theorem execute_auto_id_always_duplicate (pfx command_id : String) (now : Int)
    (m : IdemMap) :
    (execute_dedup_step pfx command_id none now m).1 = .dup := by
  simp [execute_dedup_step, generate_client_order_id, is_duplicate,
    List.lookup]

/-- C2: client order id minting is not deterministic in its logical input:
`Order::generate_client_order_id` ignores the signal id and returns the fresh
uuid4 draw, and the executor's minting depends on the wall clock, so two
invocations with the same signal id (resp. command id) can return different
strings. -/
theorem client_order_id_minting_not_deterministic :
    Order.generate_client_order_id "sig-1" "00000000000000000000000000000001"
      ≠ Order.generate_client_order_id "sig-1" "00000000000000000000000000000002"
    ∧ (generate_client_order_id "ORDER" "cmd-1" 1700000000000 []).1
      ≠ (generate_client_order_id "ORDER" "cmd-1" 1700000000001 []).1 := by
  constructor <;> decide

/-! ## Arbitrage coordinator (C7) -/

/-- C7: on every joint-state update, the new pair state is exactly the spec
section 4.8 decision table applied to the four leg booleans, and the pair's
`actual_profit` is set to `expected_profit × 0.95` exactly when the pair
enters Completed (both legs filled), being left untouched otherwise. -/
theorem update_arbitrage_state_matches_spec_table (p : ArbitragePair)
    (now : Int) :
    (update_arbitrage_state p now).state
      = spec_pair_state (leg_filled p.maker_status) (leg_filled p.taker_status)
          (leg_failed p.maker_status) (leg_failed p.taker_status) p.state
    ∧ (update_arbitrage_state p now).actual_profit
      = (if leg_filled p.maker_status && leg_filled p.taker_status then
           some (p.expected_profit * (95 / 100 : Rat))
         else p.actual_profit) := by
  unfold update_arbitrage_state spec_pair_state calculate_actual_profit
  cases hm : leg_filled p.maker_status <;>
    cases ht : leg_filled p.taker_status <;>
      cases hmf : leg_failed p.maker_status <;>
        cases htf : leg_failed p.taker_status <;> simp

/-! ## Risk rule chain (C8) -/

/-- C8: chain evaluation visits rules in registration order and returns the
outcome of the first decisive rule — the first critical rule whose check is a
veto `Ok(false)` or an error — and `Ok(true)` when no rule is decisive;
non-critical vetoes and errors never affect the result. -/
theorem check_all_eq_first_decisive {σ τ : Type} (rules : List (RiskRule σ τ))
    (signal : σ) (state : τ) :
    check_all rules signal state
      = (((rules.find? (decisive signal state)).map
            fun r => r.check signal state).getD (.ok true)) := by
  induction rules with
  | nil => rfl
  | cons r rest ih =>
    unfold check_all
    cases hc : r.check signal state with
    | ok b =>
      cases b with
      | true =>
        have hd : decisive signal state r = false := by
          simp [decisive, hc]
        simp [List.find?_cons, hd, ih]
      | false =>
        cases hcrit : r.is_critical with
        | true =>
          have hd : decisive signal state r = true := by
            simp [decisive, hc, hcrit]
          simp [List.find?_cons, hd, hc]
        | false =>
          have hd : decisive signal state r = false := by
            simp [decisive, hc, hcrit]
          simp [List.find?_cons, hd, hcrit, ih]
    | error e =>
      cases hcrit : r.is_critical with
      | true =>
        have hd : decisive signal state r = true := by
          simp [decisive, hc, hcrit]
        simp [List.find?_cons, hd, hc]
      | false =>
        have hd : decisive signal state r = false := by
          simp [decisive, hc, hcrit]
        simp [List.find?_cons, hd, hcrit, ih]

/-! ## Order state machine (C3) -/

/-- The source transition function agrees with the amended spec table on
every (state, event) pair. -/
theorem get_next_state_eq_spec_amended (s : OrderState)
    (e : StateTransitionEvent) :
    get_next_state s e
      = (match spec_edge_amended s e with
         | some s' => .ok s'
         | none => .error "Invalid state transition") := by
  cases s <;> cases e <;> rfl

/-- C3 counterexample: the pair `(Cancelled, CancelConfirmed)` is outside the
spec section 4.6 transition table, yet the source accepts it (a Cancelled
self-loop, with a history record appended) instead of failing with an
invalid-transition error. -/
theorem cancelled_cancel_confirmed_accepted_outside_table :
    StateManager.transition_order
        ⟨[("o1", OrderState.Cancelled)], [("o1", [])]⟩ "o1"
        StateTransitionEvent.CancelConfirmed 0
      = .ok (OrderState.Cancelled,
          ⟨[("o1", OrderState.Cancelled)],
           [("o1", [⟨OrderState.Cancelled, OrderState.Cancelled,
                     StateTransitionEvent.CancelConfirmed, 0, none⟩])]⟩)
    ∧ spec_edge OrderState.Cancelled StateTransitionEvent.CancelConfirmed
        = none := by
  constructor <;> rfl

/-- C3 (amended): for an order the manager knows, a transition attempt
succeeds exactly on the pairs of the section 4.6 table extended with
`(Cancelled, CancelConfirmed) → Cancelled`; on those pairs the new state is
the table's target and a single `(from, to, event, timestamp)` record is
appended to that order's history, and on every other pair the call fails with
the invalid-transition error, returning no changed manager. -/
theorem transition_order_follows_amended_table (m : StateManager)
    (order_id : String) (e : StateTransitionEvent) (now : Int)
    (s : OrderState) (hs : m.machines.lookup order_id = some s) :
    m.transition_order order_id e now
      = (match spec_edge_amended s e with
         | some s' =>
             .ok (s',
               { machines := alist_update m.machines order_id fun _ => s',
                 histories := alist_update m.histories order_id fun h =>
                   h ++ [⟨s, s', e, now, none⟩] })
         | none => .error "Invalid state transition") := by
  unfold StateManager.transition_order
  rw [hs]
  simp only [get_next_state_eq_spec_amended]
  cases spec_edge_amended s e <;> rfl

/-- C3 witness: the amended theorem applied to a one-order manager in state
Created with a Validate event. -/
theorem transition_order_follows_amended_table_witness :
    StateManager.transition_order
        ⟨[("w1", OrderState.Created)], [("w1", [])]⟩ "w1"
        StateTransitionEvent.Validate 7
      = (match spec_edge_amended OrderState.Created
              StateTransitionEvent.Validate with
         | some s' =>
             .ok (s',
               { machines :=
                   alist_update [("w1", OrderState.Created)] "w1" fun _ => s',
                 histories := alist_update [("w1", [])] "w1" fun h =>
                   h ++ [⟨OrderState.Created, s',
                          StateTransitionEvent.Validate, 7, none⟩] })
         | none => .error "Invalid state transition") :=
  transition_order_follows_amended_table
    ⟨[("w1", OrderState.Created)], [("w1", [])]⟩ "w1"
    StateTransitionEvent.Validate 7 OrderState.Created (by rfl)

/-! ## Order fill accounting (C6) -/

/-- Total quantity of a fill list. -/
theorem fills_sum_nonneg (fills : List (Rat × Rat))
    (h : ∀ f ∈ fills, 0 < f.1) : 0 ≤ (fills.map fun f => f.1).sum := by
  induction fills with
  | nil => simp
  | cons f rest ih =>
    simp only [List.map_cons, List.sum_cons]
    have h1 := h f (by simp)
    have h2 : 0 ≤ (rest.map fun f => f.1).sum :=
      ih fun g hg => h g (by simp [hg])
    linarith

/-- Accounting invariant of `update_execution` over any positive fill
sequence, from an arbitrary consistent starting order. -/
theorem apply_fills_accounting (now : Int) :
    ∀ (fills : List (Rat × Rat)) (o : Order), (∀ f ∈ fills, 0 < f.1) →
      0 ≤ o.executed_quantity →
      o.remaining_quantity = o.quantity - o.executed_quantity →
      (o.apply_fills fills now).quantity = o.quantity
      ∧ (o.apply_fills fills now).executed_quantity
          = o.executed_quantity + (fills.map fun f => f.1).sum
      ∧ (o.apply_fills fills now).executed_price
            * (o.executed_quantity + (fills.map fun f => f.1).sum)
          = o.executed_price * o.executed_quantity
            + (fills.map fun f => f.2 * f.1).sum
      ∧ (o.apply_fills fills now).remaining_quantity
          = o.quantity - (o.executed_quantity + (fills.map fun f => f.1).sum)
  | [], o, _, _, hrem => by
      simpa [Order.apply_fills] using hrem
  | (q, p) :: rest, o, h, hnn, _ => by
      have hq : 0 < q := h (q, p) (by simp)
      have htot : 0 < o.executed_quantity + q := by linarith
      have hstep :
          (o.update_execution q p now).executed_quantity
              = o.executed_quantity + q
            ∧ (o.update_execution q p now).executed_price
                  * (o.executed_quantity + q)
                = o.executed_price * o.executed_quantity + p * q
            ∧ (o.update_execution q p now).quantity = o.quantity
            ∧ (o.update_execution q p now).remaining_quantity
                = o.quantity - (o.executed_quantity + q) := by
        refine ⟨rfl, ?_, rfl, rfl⟩
        simp only [Order.update_execution, htot, if_pos]
        field_simp
      obtain ⟨he, hp, hquant, hrem⟩ := hstep
      have ih := apply_fills_accounting now rest (o.update_execution q p now)
        (fun g hg => h g (by simp [hg]))
        (by rw [he]; linarith)
        (by rw [hrem, he, hquant])
      obtain ⟨ih1, ih2, ih3, ih4⟩ := ih
      have happ :
          (o.apply_fills ((q, p) :: rest) now)
            = ((o.update_execution q p now).apply_fills rest now) := rfl
      refine ⟨?_, ?_, ?_, ?_⟩
      · rw [happ, ih1, hquant]
      · rw [happ, ih2, he]
        simp only [List.map_cons, List.sum_cons]
        ring
      · rw [happ]
        have hmain := ih3
        rw [he, hp] at hmain
        calc ((o.update_execution q p now).apply_fills rest now).executed_price
              * (o.executed_quantity
                  + (((q, p) :: rest).map fun f => f.1).sum)
            = ((o.update_execution q p now).apply_fills rest
                now).executed_price
              * ((o.executed_quantity + q) + (rest.map fun f => f.1).sum) := by
              simp only [List.map_cons, List.sum_cons]
              ring
          _ = o.executed_price * o.executed_quantity + p * q
              + (rest.map fun f => f.2 * f.1).sum := hmain
          _ = o.executed_price * o.executed_quantity
              + (((q, p) :: rest).map fun f => f.2 * f.1).sum := by
              simp only [List.map_cons, List.sum_cons]
              ring
      · rw [happ, ih4, he, hquant]
        simp only [List.map_cons, List.sum_cons]
        ring

/-- C6: starting from `Order::from_signal` (executed 0, remaining =
quantity), after any sequence of positive execution updates
`executed_quantity + remaining_quantity = quantity` holds and
`executed_price` is the quantity-weighted average of the fills applied. -/
theorem order_execution_accounting (signal : Signal) (uuid4 : String)
    (t0 now : Int) (fills : List (Rat × Rat))
    (h : ∀ f ∈ fills, 0 < f.1) :
    ((Order.from_signal signal uuid4 t0).apply_fills fills now).executed_quantity
        + ((Order.from_signal signal uuid4 t0).apply_fills fills
            now).remaining_quantity
      = ((Order.from_signal signal uuid4 t0).apply_fills fills now).quantity
    ∧ ((Order.from_signal signal uuid4 t0).apply_fills fills
          now).executed_price
      = weighted_avg fills := by
  have h0 : (Order.from_signal signal uuid4 t0).executed_quantity = 0 := rfl
  have hacc := apply_fills_accounting now fills
    (Order.from_signal signal uuid4 t0) h (by rw [h0]) (by
      show signal.quantity.getD 0 = signal.quantity.getD 0 - 0
      ring)
  obtain ⟨h1, h2, h3, h4⟩ := hacc
  rw [h0] at h2 h3 h4
  simp only [zero_add] at h2 h3 h4
  constructor
  · rw [h1, h2, h4]; ring
  · rcases eq_or_lt_of_le (fills_sum_nonneg fills h) with hz | hpos
    · -- zero total quantity: only possible for the empty list
      cases fills with
      | nil =>
          simp [weighted_avg]
          show (Order.from_signal signal uuid4 t0).executed_price = 0
          rfl
      | cons f rest =>
          exfalso
          have hf := h f (by simp)
          have hr : 0 ≤ (rest.map fun g => g.1).sum :=
            fills_sum_nonneg rest fun g hg => h g (by simp [hg])
          have : (0 : Rat) < ((f :: rest).map fun g => g.1).sum := by
            simp only [List.map_cons, List.sum_cons]; linarith
          rw [← hz] at this
          exact lt_irrefl _ this
    · have hne : ((fills.map fun f => f.1).sum : Rat) ≠ 0 := ne_of_gt hpos
      have hmul : ((Order.from_signal signal uuid4 t0).apply_fills fills
            now).executed_price
          = ((fills.map fun f => f.2 * f.1).sum
              + (Order.from_signal signal uuid4 t0).executed_price * 0)
            / (fills.map fun f => f.1).sum := by
        field_simp
        rw [h3]
        ring
      rw [hmul, weighted_avg, mul_zero, add_zero]

/-- C6 witness: two fills `(3 @ 100)` then `(4 @ 101)` on a 10-lot order. -/
theorem order_execution_accounting_witness :
    (∀ f ∈ [((3 : Rat), (100 : Rat)), (4, 101)], 0 < f.1)
    ∧ (((Order.from_signal
          ⟨"s1", "BTCUSDT", "Binance", some .Buy, some 100, some 10, "src", 5,
           [], 0, false⟩ "u1" 0).apply_fills
            [((3 : Rat), (100 : Rat)), (4, 101)] 1).executed_quantity
        + ((Order.from_signal
            ⟨"s1", "BTCUSDT", "Binance", some .Buy, some 100, some 10, "src",
             5, [], 0, false⟩ "u1" 0).apply_fills
              [((3 : Rat), (100 : Rat)), (4, 101)] 1).remaining_quantity
      = ((Order.from_signal
          ⟨"s1", "BTCUSDT", "Binance", some .Buy, some 100, some 10, "src", 5,
           [], 0, false⟩ "u1" 0).apply_fills
            [((3 : Rat), (100 : Rat)), (4, 101)] 1).quantity
    ∧ ((Order.from_signal
          ⟨"s1", "BTCUSDT", "Binance", some .Buy, some 100, some 10, "src", 5,
           [], 0, false⟩ "u1" 0).apply_fills
            [((3 : Rat), (100 : Rat)), (4, 101)] 1).executed_price
      = weighted_avg [((3 : Rat), (100 : Rat)), (4, 101)]) :=
  ⟨by decide,
   order_execution_accounting
     ⟨"s1", "BTCUSDT", "Binance", some .Buy, some 100, some 10, "src", 5, [],
      0, false⟩ "u1" 0 1 [((3 : Rat), (100 : Rat)), (4, 101)] (by decide)⟩

/-! ## Risk state (C9) -/

/-- Looking up the upserted key finds the updated (or freshly inserted)
value. -/
theorem alist_upsert_lookup {α : Type} (l : List (String × α)) (k : String)
    (d : α) (f : α → α) :
    (alist_upsert l k d f).lookup k = some (f ((l.lookup k).getD d)) := by
  induction l with
  | nil => simp [alist_upsert, List.lookup]
  | cons e rest ih =>
    by_cases hk : e.1 = k
    · simp [alist_upsert, List.lookup, hk]
    · have hk2 : (k == e.1) = false := by
        simp [beq_eq_false_iff_ne]
        exact fun hh => hk hh.symm
      simp [alist_upsert, List.lookup, hk, hk2, ih]

/-- C9 counterexample: a Cancelled execution report — a terminal status —
leaves the symbol's `pending_orders` counter untouched (the source decrements
it only on Filled), and a total exposure of exactly 0.03 maps to High, not
Critical (the source compares strictly). -/
theorem process_execution_counterexample :
    ((RiskState.process_execution
        ⟨[("S", { SymbolRiskState.new "S" with pending_orders := 1 })],
         ⟨0, 0, 0, 0, 0, 0, .Low, 0, false, none⟩⟩
        ⟨"o1", "c1", "S", .Buy, 0, 0, .Cancelled⟩
        0).symbol_states.lookup "S").map (fun s => s.pending_orders)
      = some 1
    ∧ risk_level_of (3 / 100) = .High
    ∧ risk_level_of (3 / 100) ≠ .Critical := by
  have hH : risk_level_of (3 / 100) = .High := by norm_num [risk_level_of]
  exact ⟨by decide, hH, by rw [hH]; decide⟩

/-- C9 (amended): `process_execution` decrements the symbol's
`pending_orders` (saturating) only when the report status is Filled —
terminal statuses other than Filled leave it unchanged — increments the
global `daily_trades` exactly on Filled, recomputes `total_exposure` as
`Σ |capital_used|` over the symbol states, and re-derives `risk_level` from
that exposure with strict thresholds (`> 0.03` Critical, `> 0.025` High,
`> 0.015` Medium, else Low), so exposure exactly 0.03 is High. -/
theorem process_execution_characterization (st : RiskState)
    (r : ExecutionReport) (now : Int) :
    ((st.process_execution r now).symbol_states.lookup r.symbol).map
        (fun s => s.pending_orders)
      = some (if r.status = .Filled then
                ((st.symbol_states.lookup r.symbol).getD
                  (SymbolRiskState.new r.symbol)).pending_orders - 1
              else
                ((st.symbol_states.lookup r.symbol).getD
                  (SymbolRiskState.new r.symbol)).pending_orders)
    ∧ (st.process_execution r now).global_state.daily_trades
      = (if r.status = .Filled then st.global_state.daily_trades + 1
         else st.global_state.daily_trades)
    ∧ (st.process_execution r now).global_state.total_exposure
      = sum_abs_capital (st.process_execution r now).symbol_states
    ∧ (st.process_execution r now).global_state.risk_level
      = risk_level_of
          (sum_abs_capital (st.process_execution r now).symbol_states) := by
  refine ⟨?_, ?_, ?_, ?_⟩
  · show ((alist_upsert st.symbol_states r.symbol
        (SymbolRiskState.new r.symbol)
        fun s => process_execution_symbol s r now).lookup r.symbol).map
          (fun s => s.pending_orders) = _
    rw [alist_upsert_lookup]
    rcases hst : r.status <;>
      rcases hside : r.side <;>
        simp [process_execution_symbol, SymbolRiskState.update_trade_stats,
          hst, hside]
  · unfold RiskState.process_execution RiskState.recalculate_global_exposure
      GlobalRiskState.update_risk_level
    rcases hst : r.status <;> simp [hst]
  · rfl
  · rfl

/-! ## Wire codec (C4, C5) -/

@[simp] theorem encU32_length (n : Nat) : (encU32 n).length = 4 := rfl

@[simp] theorem encU64_length (n : Nat) : (encU64 n).length = 8 := rfl

@[simp] theorem encI64_length (v : Int) : (encI64 v).length = 8 := rfl

@[simp] theorem encU8_length (n : Nat) : (encU8 n).length = 1 := rfl

@[simp] theorem encOptF64_length (o : Option Nat) :
    (encOptF64 o).length = (match o with | some _ => 9 | none => 1) := by
  cases o <;> rfl

theorem rdU32_encU32 (n : Nat) (r : List Nat) (h : n < 4294967296) :
    rdU32 (encU32 n ++ r) = some (n, r) := by
  have hn : n % 256 + 256 * (n / 256 % 256) + 65536 * (n / 65536 % 256)
      + 16777216 * (n / 16777216 % 256) = n := by omega
  simp [encU32, rdU32, hn]

theorem rdU64_encU64 (n : Nat) (r : List Nat)
    (h : n < 18446744073709551616) :
    rdU64 (encU64 n ++ r) = some (n, r) := by
  have hn : n % 256 + 256 * (n / 256 % 256) + 65536 * (n / 65536 % 256)
      + 16777216 * (n / 16777216 % 256)
      + 4294967296 * (n / 4294967296 % 256)
      + 1099511627776 * (n / 1099511627776 % 256)
      + 281474976710656 * (n / 281474976710656 % 256)
      + 72057594037927936 * (n / 72057594037927936 % 256) = n := by omega
  simp [encU64, rdU64, hn]

theorem rdI64_encI64 (v : Int) (r : List Nat)
    (h1 : -9223372036854775808 ≤ v) (h2 : v ≤ 9223372036854775807) :
    rdI64 (encI64 v ++ r) = some (v, r) := by
  have hlt : (v % 18446744073709551616).toNat < 18446744073709551616 := by
    omega
  unfold encI64 rdI64
  rw [rdU64_encU64 _ _ hlt]
  have hs : toSigned64 (v % 18446744073709551616).toNat = v := by
    unfold toSigned64
    split <;> omega
  simp [hs]

theorem rdI64_encI64_nil (v : Int)
    (h1 : -9223372036854775808 ≤ v) (h2 : v ≤ 9223372036854775807) :
    rdI64 (encI64 v) = some (v, []) := by
  have := rdI64_encI64 v [] h1 h2
  simpa using this

theorem rdU8_encU8 (n : Nat) (r : List Nat) (h : n < 256) :
    rdU8 (encU8 n ++ r) = some (n, r) := by
  simp [encU8, rdU8, Nat.mod_eq_of_lt h]

theorem rdBytes_exact (l r : List Nat) :
    rdBytes l.length (l ++ r) = some (l, r) := by
  simp [rdBytes, List.take_left, List.drop_left]

theorem rdOptF64_encOptF64 (o : Option Nat) (r : List Nat)
    (h : wfOptF64 o = true) :
    rdOptF64 (encOptF64 o ++ r) = some (o, r) := by
  cases o with
  | none => simp [encOptF64, encU8, rdOptF64, rdU8]
  | some v =>
    have hv : v < 18446744073709551616 := by
      simpa [wfOptF64, wfF64] using h
    simp only [encOptF64, List.append_assoc]
    unfold rdOptF64
    rw [rdU8_encU8 1 _ (by norm_num)]
    simp [rdU64_encU64 _ _ hv]

theorem rdStr_enc (s r : List Nat) (hv : validUtf8 s = true)
    (hl : s.length < 4294967296) :
    rdStr (encU32 s.length ++ (s ++ r)) = some (.ok (s, r)) := by
  unfold rdStr
  rw [rdU32_encU32 _ _ hl]
  simp [rdBytes_exact, hv]

theorem from_timestamp_millis_of_wf (t : Int) (h : wfTs t = true) :
    from_timestamp_millis t = some t := by
  simp only [wfTs, Bool.and_eq_true, decide_eq_true_eq] at h
  simp [from_timestamp_millis, h.1, h.2]

theorem wfTs_lower (t : Int) (h : wfTs t = true) :
    -9223372036854775808 ≤ t := by
  simp only [wfTs, Bool.and_eq_true, decide_eq_true_eq] at h
  omega

theorem wfTs_upper (t : Int) (h : wfTs t = true) :
    t ≤ 9223372036854775807 := by
  simp only [wfTs, Bool.and_eq_true, decide_eq_true_eq] at h
  omega

theorem rdTs_enc (t : Int) (r : List Nat) (h : wfTs t = true) :
    rdTs (encI64 t ++ r) = some (.ok (t, r)) := by
  unfold rdTs
  rw [rdI64_encI64 _ _ (wfTs_lower t h) (wfTs_upper t h)]
  simp [from_timestamp_millis_of_wf t h]

theorem rdTs_enc_nil (t : Int) (h : wfTs t = true) :
    rdTs (encI64 t) = some (.ok (t, [])) := by
  have := rdTs_enc t [] h
  simpa using this

theorem exchange_from_u32_code (e : Exchange) :
    Exchange.from_u32 e.code = .ok e := by cases e <;> rfl

theorem exchange_code_lt (e : Exchange) : e.code < 4294967296 := by
  cases e <;> norm_num [Exchange.code]

theorem side_from_u32_code (s : Side) : Side.from_u32 s.code = .ok s := by
  cases s <;> rfl

theorem side_code_lt (s : Side) : s.code < 4294967296 := by
  cases s <;> norm_num [Side.code]

theorem orderType_from_u32_code (t : OrderType) :
    OrderType.from_u32 t.code = .ok t := by cases t <;> rfl

theorem orderType_code_lt (t : OrderType) : t.code < 4294967296 := by
  cases t <;> norm_num [OrderType.code]

theorem triggerType_from_u32_code (t : TriggerType) :
    TriggerType.from_u32 t.code = .ok t := by cases t <;> rfl

theorem triggerType_code_lt (t : TriggerType) : t.code < 4294967296 := by
  cases t <;> norm_num [TriggerType.code]

theorem fundingDirection_from_u32_code (d : FundingDirection) :
    FundingDirection.from_u32 d.code = .ok d := by cases d <;> rfl

theorem fundingDirection_code_lt (d : FundingDirection) :
    d.code < 4294967296 := by cases d <;> norm_num [FundingDirection.code]

theorem riskLevel_from_u32_code (l : RiskLevel) :
    RiskLevel.from_u32 l.code = .ok l := by cases l <;> rfl

theorem riskLevel_code_lt (l : RiskLevel) : l.code < 4294967296 := by
  cases l <;> norm_num [RiskLevel.code]

theorem orderResponseStatus_from_u32_code (s : OrderResponseStatus) :
    OrderResponseStatus.from_u32 s.code = .ok s := by cases s <;> rfl

theorem orderResponseStatus_code_lt (s : OrderResponseStatus) :
    s.code < 4294967296 := by cases s <;> norm_num [OrderResponseStatus.code]

/-- Round trip of the signal codec on well-formed values. -/
theorem wireSignal_roundtrip (s : WireSignal) (h : s.wf = true) :
    WireSignal.from_bytes s.to_bytes = some (.ok s) := by
  cases s with
  | AdaptiveSpreadDeviation a =>
    simp only [WireSignal.wf, Bool.and_eq_true, wfU32, wfF64,
      decide_eq_true_eq] at h
    obtain ⟨⟨⟨⟨⟨h1, h2⟩, h3⟩, h4⟩, h5⟩, h6⟩ := h
    simp [WireSignal.to_bytes, WireSignal.from_bytes, List.append_assoc,
      rdU32_encU32 _ _ h1, rdU32_encU32 _ _ h2,
      rdU64_encU64 _ _ h3, rdU64_encU64 _ _ h4, rdU64_encU64 _ _ h5,
      rdI64_encI64_nil _ (wfTs_lower _ h6) (wfTs_upper _ h6),
      from_timestamp_millis_of_wf _ h6, rdU32_encU32]
  | FixedSpreadDeviation a =>
    simp only [WireSignal.wf, Bool.and_eq_true, wfU32, wfF64,
      decide_eq_true_eq] at h
    obtain ⟨⟨⟨⟨h1, h2⟩, h3⟩, h4⟩, h5⟩ := h
    simp [WireSignal.to_bytes, WireSignal.from_bytes, List.append_assoc,
      rdU32_encU32 _ _ h1, rdU32_encU32 _ _ h2,
      rdU64_encU64 _ _ h3, rdU64_encU64 _ _ h4,
      rdI64_encI64_nil _ (wfTs_lower _ h5) (wfTs_upper _ h5),
      from_timestamp_millis_of_wf _ h5, rdU32_encU32]
  | FundingRateDirection a =>
    simp only [WireSignal.wf, Bool.and_eq_true, wfU32, wfF64,
      decide_eq_true_eq] at h
    obtain ⟨⟨⟨h1, h2⟩, h3⟩, h4⟩ := h
    simp [WireSignal.to_bytes, WireSignal.from_bytes, List.append_assoc,
      rdU32_encU32 _ _ h1, rdU32_encU32 _ _ h2,
      rdU64_encU64 _ _ h3,
      rdU32_encU32 _ _ (fundingDirection_code_lt a.direction),
      fundingDirection_from_u32_code,
      rdI64_encI64_nil _ (wfTs_lower _ h4) (wfTs_upper _ h4),
      from_timestamp_millis_of_wf _ h4, rdU32_encU32]
  | RealTimeFundingRisk a =>
    simp only [WireSignal.wf, Bool.and_eq_true, wfU32, wfF64,
      decide_eq_true_eq] at h
    obtain ⟨⟨⟨⟨h1, h2⟩, h3⟩, h4⟩, h5⟩ := h
    simp [WireSignal.to_bytes, WireSignal.from_bytes, List.append_assoc,
      rdU32_encU32 _ _ h1, rdU32_encU32 _ _ h2,
      rdU32_encU32 _ _ (riskLevel_code_lt a.risk_level),
      riskLevel_from_u32_code,
      rdU64_encU64 _ _ h3, rdU64_encU64 _ _ h4,
      rdI64_encI64_nil _ (wfTs_lower _ h5) (wfTs_upper _ h5),
      from_timestamp_millis_of_wf _ h5, rdU32_encU32]
  | OrderResponse a =>
    simp only [WireSignal.wf, wfStr, Bool.and_eq_true, wfU32,
      decide_eq_true_eq] at h
    obtain ⟨⟨⟨⟨hv, hl⟩, h1⟩, h2⟩, h3⟩ := h
    simp [WireSignal.to_bytes, WireSignal.from_bytes, List.append_assoc,
      rdU32_encU32 _ _ hl, rdBytes_exact, hv,
      rdU32_encU32 _ _ h1, rdU32_encU32 _ _ h2,
      rdU32_encU32 _ _ (orderResponseStatus_code_lt a.status),
      orderResponseStatus_from_u32_code,
      rdI64_encI64_nil _ (wfTs_lower _ h3) (wfTs_upper _ h3),
      from_timestamp_millis_of_wf _ h3, rdU32_encU32]

/-- Round trip of the event codec on well-formed values. -/
theorem tradingEvent_roundtrip (e : TradingEvent) (h : e.wf = true) :
    TradingEvent.from_bytes e.to_bytes = some (.ok e) := by
  cases e with
  | OpenPosition a =>
    simp only [TradingEvent.wf, wfStr, Bool.and_eq_true, wfU32, wfF64,
      decide_eq_true_eq] at h
    obtain ⟨⟨⟨⟨h1, h2⟩, h3⟩, hv, hl⟩, h5⟩ := h
    simp [TradingEvent.to_bytes, TradingEvent.from_bytes, List.append_assoc,
      rdU32_encU32 _ _ h1,
      rdU32_encU32 _ _ (exchange_code_lt a.exchange), exchange_from_u32_code,
      rdU32_encU32 _ _ (side_code_lt a.side), side_from_u32_code,
      rdU64_encU64 _ _ h2,
      rdU32_encU32 _ _ (orderType_code_lt a.order_type),
      orderType_from_u32_code,
      rdOptF64_encOptF64 _ _ h3,
      rdU32_encU32 _ _ (triggerType_code_lt a.trigger_type),
      triggerType_from_u32_code,
      rdStr_enc _ _ hv hl, rdTs_enc_nil _ h5, rdU32_encU32]
  | ClosePosition a =>
    simp only [TradingEvent.wf, wfStr, Bool.and_eq_true, wfU32, wfF64,
      decide_eq_true_eq] at h
    obtain ⟨⟨⟨⟨h1, h2⟩, h3⟩, hv, hl⟩, h5⟩ := h
    simp [TradingEvent.to_bytes, TradingEvent.from_bytes, List.append_assoc,
      rdU32_encU32 _ _ h1,
      rdU32_encU32 _ _ (exchange_code_lt a.exchange), exchange_from_u32_code,
      rdU32_encU32 _ _ (side_code_lt a.side), side_from_u32_code,
      rdU64_encU64 _ _ h2,
      rdU32_encU32 _ _ (orderType_code_lt a.order_type),
      orderType_from_u32_code,
      rdOptF64_encOptF64 _ _ h3,
      rdU32_encU32 _ _ (triggerType_code_lt a.trigger_type),
      triggerType_from_u32_code,
      rdStr_enc _ _ hv hl, rdTs_enc_nil _ h5, rdU32_encU32]
  | HedgePosition a =>
    simp only [TradingEvent.wf, wfStr, Bool.and_eq_true, wfU32, wfF64,
      decide_eq_true_eq] at h
    obtain ⟨⟨⟨h1, h2⟩, hv, hl⟩, h5⟩ := h
    simp [TradingEvent.to_bytes, TradingEvent.from_bytes, List.append_assoc,
      rdU32_encU32 _ _ h1,
      rdU32_encU32 _ _ (exchange_code_lt a.primary_exchange),
      rdU32_encU32 _ _ (exchange_code_lt a.hedge_exchange),
      exchange_from_u32_code,
      rdU32_encU32 _ _ (side_code_lt a.side), side_from_u32_code,
      rdU64_encU64 _ _ h2,
      rdU32_encU32 _ _ (triggerType_code_lt a.trigger_type),
      triggerType_from_u32_code,
      rdStr_enc _ _ hv hl, rdTs_enc_nil _ h5, rdU32_encU32]
  | CancelOrder a =>
    simp only [TradingEvent.wf, wfStr, Bool.and_eq_true, wfU32,
      decide_eq_true_eq] at h
    obtain ⟨⟨⟨⟨hv1, hl1⟩, h1⟩, hv2, hl2⟩, h5⟩ := h
    simp [TradingEvent.to_bytes, TradingEvent.from_bytes, List.append_assoc,
      rdStr_enc _ _ hv1 hl1,
      rdU32_encU32 _ _ h1,
      rdU32_encU32 _ _ (exchange_code_lt a.exchange), exchange_from_u32_code,
      rdStr_enc _ _ hv2 hl2, rdTs_enc_nil _ h5, rdU32_encU32]
  | ModifyOrder a =>
    simp only [TradingEvent.wf, wfStr, Bool.and_eq_true, wfU32,
      decide_eq_true_eq] at h
    obtain ⟨⟨⟨⟨⟨⟨hv1, hl1⟩, h1⟩, h2⟩, h3⟩, hv2, hl2⟩, h5⟩ := h
    simp [TradingEvent.to_bytes, TradingEvent.from_bytes, List.append_assoc,
      rdStr_enc _ _ hv1 hl1,
      rdU32_encU32 _ _ h1,
      rdU32_encU32 _ _ (exchange_code_lt a.exchange), exchange_from_u32_code,
      rdOptF64_encOptF64 _ _ h2, rdOptF64_encOptF64 _ _ h3,
      rdStr_enc _ _ hv2 hl2, rdTs_enc_nil _ h5, rdU32_encU32]

/-- Round trip of the event-envelope codec on well-formed values. -/
theorem eventMessage_roundtrip (m : EventMessage) (h : m.wf = true) :
    EventMessage.from_bytes m.to_bytes = some (.ok m) := by
  simp only [EventMessage.wf, Bool.and_eq_true, decide_eq_true_eq] at h
  obtain ⟨⟨he, hs⟩, ht⟩ := h
  have hsid : m.sequence_id % 18446744073709551616 = m.sequence_id :=
    Nat.mod_eq_of_lt hs
  simp only [EventMessage.to_bytes, EventMessage.from_bytes, hsid,
    List.append_assoc, List.length_append, encU64_length, encI64_length]
  rw [if_neg (by omega)]
  rw [show m.event.to_bytes.length + (8 + 8) - 16 = m.event.to_bytes.length
      from by omega]
  rw [List.take_left, List.drop_left]
  rw [tradingEvent_roundtrip m.event he]
  rw [rdU64_encU64 _ _ hs]
  simp [rdI64_encI64_nil _ (wfTs_lower _ ht) (wfTs_upper _ ht),
    from_timestamp_millis_of_wf _ ht]

/-- C4: for every well-formed Signal, TradingEvent and EventMessage value,
decoding the encoding returns exactly the value:
`decode(encode(x)) = Ok(x)` for all three codecs. -/
theorem codec_roundtrip (s : WireSignal) (e : TradingEvent) (m : EventMessage)
    (hs : s.wf = true) (he : e.wf = true) (hm : m.wf = true) :
    WireSignal.from_bytes s.to_bytes = some (.ok s)
    ∧ TradingEvent.from_bytes e.to_bytes = some (.ok e)
    ∧ EventMessage.from_bytes m.to_bytes = some (.ok m) :=
  ⟨wireSignal_roundtrip s hs, tradingEvent_roundtrip e he,
   eventMessage_roundtrip m hm⟩

/-- C4 witness: the round trip evaluated on a concrete signal (a
FundingRateDirection), a concrete event (a CancelOrder with ASCII order id
"abc" and reason "ok") and that event wrapped in an EventMessage. -/
theorem codec_roundtrip_witness :
    (WireSignal.wf (.FundingRateDirection ⟨1, 42, 7, .Positive, 1700000000000⟩)
        = true)
    ∧ (TradingEvent.wf
        (.CancelOrder ⟨[97, 98, 99], 42, .Binance, [111, 107],
          1700000000000⟩) = true)
    ∧ (EventMessage.wf
        ⟨.CancelOrder ⟨[97, 98, 99], 42, .Binance, [111, 107],
          1700000000000⟩, 5, 1700000000000⟩ = true)
    ∧ (WireSignal.from_bytes
          (WireSignal.to_bytes
            (.FundingRateDirection ⟨1, 42, 7, .Positive, 1700000000000⟩))
        = some (.ok (.FundingRateDirection ⟨1, 42, 7, .Positive,
            1700000000000⟩))
      ∧ TradingEvent.from_bytes
          (TradingEvent.to_bytes
            (.CancelOrder ⟨[97, 98, 99], 42, .Binance, [111, 107],
              1700000000000⟩))
        = some (.ok (.CancelOrder ⟨[97, 98, 99], 42, .Binance, [111, 107],
            1700000000000⟩))
      ∧ EventMessage.from_bytes
          (EventMessage.to_bytes
            ⟨.CancelOrder ⟨[97, 98, 99], 42, .Binance, [111, 107],
              1700000000000⟩, 5, 1700000000000⟩)
        = some (.ok ⟨.CancelOrder ⟨[97, 98, 99], 42, .Binance, [111, 107],
            1700000000000⟩, 5, 1700000000000⟩)) :=
  ⟨by decide, by decide, by decide,
   codec_roundtrip
     (.FundingRateDirection ⟨1, 42, 7, .Positive, 1700000000000⟩)
     (.CancelOrder ⟨[97, 98, 99], 42, .Binance, [111, 107], 1700000000000⟩)
     ⟨.CancelOrder ⟨[97, 98, 99], 42, .Binance, [111, 107], 1700000000000⟩,
      5, 1700000000000⟩
     (by decide) (by decide) (by decide)⟩

/-- C5: the decoders are not total on truncated input — they hit an
unguarded `bytes` crate read and panic (modelled as `none`) instead of
returning a decode error. `Signal::from_bytes` panics on a tag-0 buffer with
36 payload bytes (its guard asks for 36 where the fields need 40), and
`TradingEvent::from_bytes` panics on any buffer holding only the 4-byte
tag. -/
theorem decoders_panic_on_truncated_input :
    WireSignal.from_bytes (encU32 0 ++ List.replicate 36 0) = none
    ∧ TradingEvent.from_bytes (encU32 0) = none := by
  constructor <;> rfl
